import Mathlib

/-!
Shallow embedding of `src/main.rs` from mwstobo/dyndns-rs.

The program is a single linear pipeline: read configuration from the
environment, fetch the external IP over HTTP, resolve the configured host
via DNS, and when the two trimmed strings differ, issue one provider
update (Route53 or Cloudflare).  Network interactions are modelled by a
`World` record holding the environment map and the result each outbound
call would produce; running the pipeline yields the list of outbound
calls actually issued (the trace) together with the process outcome.
-/

namespace Dyndns

/-- Rust `aws_sdk_route53::types::RrType` (the constructors used here). -/
inductive RrType
  | A
  | CNAME
deriving DecidableEq, Repr

/-- Rust `aws_sdk_route53::types::ChangeAction`. -/
inductive ChangeAction
  | Upsert
  | Create
  | Delete
deriving DecidableEq, Repr

/-- Rust `aws_sdk_route53::types::ResourceRecord`. -/
structure ResourceRecord where
  value : String
deriving DecidableEq, Repr

/-- Rust `aws_sdk_route53::types::ResourceRecordSet` (fields set by the program). -/
structure ResourceRecordSet where
  name : String
  ttl : Int
  rrType : RrType
  resource_records : List ResourceRecord
deriving DecidableEq, Repr

/-- Rust `aws_sdk_route53::types::Change`. -/
structure Change where
  action : ChangeAction
  resource_record_set : ResourceRecordSet
deriving DecidableEq, Repr

/-- Rust `aws_sdk_route53::types::ChangeBatch`. -/
structure ChangeBatch where
  changes : List Change
deriving DecidableEq, Repr

/-- The payload of a `change_resource_record_sets` request as assembled in
`Route53Updater::update` (`main.rs` lines 61-92). -/
structure Route53Request where
  hosted_zone_id : String
  change_batch : ChangeBatch
deriving DecidableEq, Repr

/-- The Route53 client as built in `main` (`main.rs` lines 204-214): the
default credential chain is always wrapped in an `AssumeRoleProvider` for
the configured role ARN before the client is constructed. -/
structure Route53Client where
  assume_role_arn : String
deriving DecidableEq, Repr

/-- An IPv4 address, the result of Rust `"...".parse::<net::Ipv4Addr>()`. -/
structure Ipv4 where
  a : Nat
  b : Nat
  c : Nat
  d : Nat
deriving DecidableEq, Repr

/-- Rust `cloudflare::endpoints::dns::dns::DnsContent` (the constructor used here). -/
inductive DnsContent
  | A (content : Ipv4)
deriving DecidableEq, Repr

/-- Rust `dns::UpdateDnsRecordParams` as filled in `CloudflareUpdater::update`
(`main.rs` lines 129-134). -/
structure UpdateDnsRecordParams where
  ttl : Option Nat
  proxied : Option Bool
  name : String
  content : DnsContent
deriving DecidableEq, Repr

/-- Rust `dns::UpdateDnsRecord` (`main.rs` lines 126-135): an update of one
existing record, addressed by zone identifier and record identifier. -/
structure CloudflareRequest where
  zone_identifier : String
  identifier : String
  params : UpdateDnsRecordParams
deriving DecidableEq, Repr

/-- The Cloudflare API client as built in `main` (`main.rs` lines 226-234). -/
structure CloudflareClient where
  token : String
deriving DecidableEq, Repr

/-- One outbound interaction of the program.  `updaterInvoked` marks the single
`DNSUpdater::update(host_name, record_value)` call site in `main`
(`main.rs` lines 216-219 / 235-238); it is not itself a network call.
`metricsPush` is the event a push-gateway metrics POST would produce; the
program under `src/` contains no code emitting it. -/
inductive Event
  | ipEcho
  | dnsLookup (host : String) (port : Nat)
  | updaterInvoked (host_name : String) (record_value : String)
  | route53Change (client : Route53Client) (req : Route53Request)
  | cloudflareUpdate (client : CloudflareClient) (req : CloudflareRequest)
  | metricsPush (url : String) (body : String)
deriving DecidableEq, Repr

/-- Rust `DNSUpdateError` (`main.rs` lines 9-14); provider error details are
kept as strings. -/
inductive DNSUpdateError
  | Route53 (e : String)
  | AddrParse
  | Cloudflare (e : String)
deriving DecidableEq, Repr

/-- The process outcome: normal exit, or a panic with the given message. -/
inductive Outcome
  | success
  | panicked (msg : String)
deriving DecidableEq, Repr

/-- The ambient world: the process environment and the result each outbound
call would produce if issued.  `ipEchoResult` is the (untrimmed) body of a
successful `GET https://ifconfig.co`, or a transport/status error.
`lookupResult` is the list of socket addresses `to_socket_addrs` would
yield, each rendered as its IP string, or an `io::Error`. -/
structure World where
  env : String → Option String
  ipEchoResult : Except String String
  lookupResult : Except String (List String)
  route53Result : Except String Unit
  cloudflareResult : Except String Unit

/-- Whitespace trimming on the character list underlying a string
(Rust `str::trim`; the whitespace classes agree on ASCII input). -/
def trimChars (l : List Char) : List Char :=
  ((l.dropWhile Char.isWhitespace).reverse.dropWhile Char.isWhitespace).reverse

/-- Rust `str::trim`, as a total function on the underlying characters. -/
def trimStr (s : String) : String :=
  ⟨trimChars s.data⟩

/-- Split a character list at every `'.'` (the group structure
`Ipv4Addr::from_str` parses): `n` dots yield `n + 1` groups, empty
groups included. -/
def splitOnDot : List Char → List (List Char)
  | [] => [[]]
  | c :: cs =>
    if c = '.' then [] :: splitOnDot cs
    else
      match splitOnDot cs with
      | g :: gs => (c :: g) :: gs
      | [] => [[c]]

/-- The numeric value of a digit group, most significant first. -/
def digitsVal (l : List Char) : Nat :=
  l.foldl (fun acc c => acc * 10 + (c.toNat - 48)) 0

/-- Rust octet parsing inside `Ipv4Addr::from_str`: one to three ASCII
digits, no leading zero (so `"0"` parses but `"00"` and `"01"` do not),
value at most 255. -/
def parseIpv4Octet (s : List Char) : Option Nat :=
  if s.length = 0 ∨ s.length > 3 then none
  else if 1 < s.length ∧ s.head? = some '0' then none
  else if s.all Char.isDigit then
    if digitsVal s ≤ 255 then some (digitsVal s) else none
  else none

/-- Rust `net::Ipv4Addr::from_str`: exactly four octets separated by dots,
nothing else in the string. -/
def parseIpv4 (s : String) : Option Ipv4 :=
  match splitOnDot s.data with
  | [a, b, c, d] =>
    match parseIpv4Octet a, parseIpv4Octet b, parseIpv4Octet c, parseIpv4Octet d with
    | some a', some b', some c', some d' => some ⟨a', b', c', d'⟩
    | _, _, _, _ => none
  | _ => none

/-- Rust `struct Route53Updater` (`main.rs` lines 40-43). -/
structure Route53Updater where
  client : Route53Client
  hosted_zone_id : String
deriving DecidableEq, Repr

/-- `Route53Updater::update` (`main.rs` lines 61-92): build one resource
record holding the value, one record set (name, TTL 300, type A), one
Upsert change, one change batch, and send it against the hosted zone. -/
def Route53Updater.update (w : World) (self : Route53Updater)
    (host_name : String) (record_value : String) :
    List Event × Except DNSUpdateError Unit :=
  let resource_record : ResourceRecord := { value := record_value }
  let resource_record_set : ResourceRecordSet :=
    { name := host_name, ttl := 300, rrType := RrType.A
      resource_records := [resource_record] }
  let change : Change :=
    { action := ChangeAction.Upsert, resource_record_set := resource_record_set }
  let change_batch : ChangeBatch := { changes := [change] }
  let req : Route53Request :=
    { hosted_zone_id := self.hosted_zone_id, change_batch := change_batch }
  ([Event.route53Change self.client req],
    w.route53Result.mapError DNSUpdateError.Route53)

/-- Rust `struct CloudflareUpdater` (`main.rs` lines 95-99). -/
structure CloudflareUpdater where
  client : CloudflareClient
  zone_identifier : String
  identifier : String
deriving DecidableEq, Repr

/-- `CloudflareUpdater::update` (`main.rs` lines 124-138): parse the value as
IPv4 (an `AddrParse` error on failure, before any request is built), then
update the record identified by `(zone_identifier, identifier)` with TTL 60,
no proxying, type A content. -/
def CloudflareUpdater.update (w : World) (self : CloudflareUpdater)
    (host_name : String) (record_value : String) :
    List Event × Except DNSUpdateError Unit :=
  match parseIpv4 record_value with
  | none => ([], Except.error DNSUpdateError.AddrParse)
  | some record_ip =>
    let endpoint : CloudflareRequest :=
      { zone_identifier := self.zone_identifier
        identifier := self.identifier
        params :=
          { ttl := some 60, proxied := none, name := host_name
            content := DnsContent.A record_ip } }
    ([Event.cloudflareUpdate self.client endpoint],
      w.cloudflareResult.mapError DNSUpdateError.Cloudflare)

/-- `current` (`main.rs` lines 141-151): one GET to the IP echo service; a
successful body is trimmed, any transport or non-2xx status is an error. -/
def current (w : World) : List Event × Except String String :=
  ([Event.ipEcho], w.ipEchoResult.map (fun t => trimStr t))

/-- `lookup` (`main.rs` lines 153-158): resolve `(host_name, port)`, and on
success return the first address's IP string, trimmed, or `none` when
resolution yielded no addresses. -/
def lookup (w : World) (host_name : String) (port : Nat) :
    List Event × Except String (Option String) :=
  ([Event.dnsLookup host_name port],
    w.lookupResult.map (fun addrs => addrs.head?.map (fun a => trimStr a)))

/-- Rust `enum Provider` (`main.rs` lines 160-163). -/
inductive Provider
  | Route53
  | Cloudflare
deriving DecidableEq, Repr

/-- `Provider::from_str` (`main.rs` lines 165-175). -/
def Provider.from_str (s : String) : Except String Provider :=
  if s = "route53" then Except.ok Provider.Route53
  else if s = "cloudflare" then Except.ok Provider.Cloudflare
  else Except.error "not found"

/-- `required_env_var` (`main.rs` lines 177-179): read the variable or panic
with a message naming it. -/
def required_env_var (env : String → Option String) (env_var : String) :
    Except String String :=
  match env env_var with
  | some s => Except.ok s
  | none => Except.error ("Missing value for env var " ++ env_var)

/-- `main` (`main.rs` lines 181-242) as a function from the world to the
trace of outbound interactions and the process outcome.  Environment
variables are read exactly where the source reads them: `PROVIDER` and
`HOST_NAME` before any network call, the provider-specific variables only
inside the update branch. -/
def main (w : World) : List Event × Outcome :=
  match required_env_var w.env "PROVIDER" with
  | Except.error msg => ([], Outcome.panicked msg)
  | Except.ok provider_str =>
    match Provider.from_str provider_str with
    | Except.error _ => ([], Outcome.panicked ("Unknown provider " ++ provider_str))
    | Except.ok provider =>
      match required_env_var w.env "HOST_NAME" with
      | Except.error msg => ([], Outcome.panicked msg)
      | Except.ok host_name =>
        let r1 := current w
        match r1.2 with
        | Except.error _ => (r1.1, Outcome.panicked "Unable to get current IP address")
        | Except.ok external_ip =>
          let r2 := lookup w host_name 80
          match r2.2 with
          | Except.error _ =>
            (r1.1 ++ r2.1,
              Outcome.panicked ("Unable to get IP address of host " ++ host_name))
          | Except.ok none =>
            (r1.1 ++ r2.1,
              Outcome.panicked ("Missing IP address for host " ++ host_name))
          | Except.ok (some host_ip) =>
            if host_ip ≠ external_ip then
              match provider with
              | Provider.Route53 =>
                match required_env_var w.env "HOSTED_ZONE_ID" with
                | Except.error msg => (r1.1 ++ r2.1, Outcome.panicked msg)
                | Except.ok hosted_zone_id =>
                  match required_env_var w.env "ASSUME_ROLE_ARN" with
                  | Except.error msg => (r1.1 ++ r2.1, Outcome.panicked msg)
                  | Except.ok assume_role_arn =>
                    let client : Route53Client := { assume_role_arn := assume_role_arn }
                    let updater : Route53Updater :=
                      { client := client, hosted_zone_id := hosted_zone_id }
                    let r3 := updater.update w host_name external_ip
                    let tr := r1.1 ++ r2.1 ++
                      [Event.updaterInvoked host_name external_ip] ++ r3.1
                    match r3.2 with
                    | Except.error _ => (tr, Outcome.panicked "Failed to update DNS records")
                    | Except.ok _ => (tr, Outcome.success)
              | Provider.Cloudflare =>
                match required_env_var w.env "CLOUDFLARE_ZONE_IDENTIFIER" with
                | Except.error msg => (r1.1 ++ r2.1, Outcome.panicked msg)
                | Except.ok zone_identifier =>
                  match required_env_var w.env "CLOUDFLARE_IDENTIFIER" with
                  | Except.error msg => (r1.1 ++ r2.1, Outcome.panicked msg)
                  | Except.ok identifier =>
                    match required_env_var w.env "CLOUDFLARE_TOKEN" with
                    | Except.error msg => (r1.1 ++ r2.1, Outcome.panicked msg)
                    | Except.ok token =>
                      let client : CloudflareClient := { token := token }
                      let updater : CloudflareUpdater :=
                        { client := client, zone_identifier := zone_identifier
                          identifier := identifier }
                      let r3 := updater.update w host_name external_ip
                      let tr := r1.1 ++ r2.1 ++
                        [Event.updaterInvoked host_name external_ip] ++ r3.1
                      match r3.2 with
                      | Except.error _ => (tr, Outcome.panicked "Failed to update DNS records")
                      | Except.ok _ => (tr, Outcome.success)
            else (r1.1 ++ r2.1, Outcome.success)

/-- Marks the single `DNSUpdater::update` invocation site. -/
def Event.isUpdaterCall : Event → Bool
  | Event.updaterInvoked _ _ => true
  | _ => false

/-- The `DNSUpdater::update` invocations in a trace. -/
def updaterCalls (tr : List Event) : List Event :=
  tr.filter Event.isUpdaterCall

/-- Network calls to a DNS provider API (or to a metrics push gateway). -/
def Event.isProviderCall : Event → Bool
  | Event.route53Change _ _ => true
  | Event.cloudflareUpdate _ _ => true
  | Event.metricsPush _ _ => true
  | _ => false

/-- A metrics push-gateway POST. -/
def Event.isMetricsPush : Event → Bool
  | Event.metricsPush _ _ => true
  | _ => false

/-- The provider-specific environment variables required by the selected
provider are all present. -/
def providerEnvReady (w : World) : Provider → Prop
  | Provider.Route53 =>
    (w.env "HOSTED_ZONE_ID").isSome ∧ (w.env "ASSUME_ROLE_ARN").isSome
  | Provider.Cloudflare =>
    (w.env "CLOUDFLARE_ZONE_IDENTIFIER").isSome ∧
    (w.env "CLOUDFLARE_IDENTIFIER").isSome ∧
    (w.env "CLOUDFLARE_TOKEN").isSome

/-- A configuration-error outcome: a panic whose message is the one
`required_env_var` raises for a missing variable, or the unknown-provider
message. -/
def isConfigError : Outcome → Prop
  | Outcome.success => False
  | Outcome.panicked msg =>
    (∃ v, msg = "Missing value for env var " ++ v) ∨
    (∃ s, msg = "Unknown provider " ++ s)

/-- An environment map from an association list, for concrete runs. -/
def envOf (l : List (String × String)) : String → Option String :=
  fun v => (l.find? (fun p => p.1 = v)).map (fun p => p.2)

/-- The change-batch request `Route53Updater::update` assembles. -/
def route53Req (hosted_zone_id host_name record_value : String) : Route53Request :=
  { hosted_zone_id := hosted_zone_id
    change_batch :=
      { changes :=
          [{ action := ChangeAction.Upsert
             resource_record_set :=
               { name := host_name, ttl := 300, rrType := RrType.A
                 resource_records := [{ value := record_value }] } }] } }

/-- The record-update request `CloudflareUpdater::update` assembles. -/
def cloudflareReq (zone_identifier identifier host_name : String) (ip : Ipv4) :
    CloudflareRequest :=
  { zone_identifier := zone_identifier
    identifier := identifier
    params := { ttl := some 60, proxied := none, name := host_name
                content := DnsContent.A ip } }

/-- The outcome of `main` after a provider update returning `r`. -/
def updateOutcome (r : Except String Unit) : Outcome :=
  match r with
  | Except.ok _ => Outcome.success
  | Except.error _ => Outcome.panicked "Failed to update DNS records"

/-- A world with an empty environment and benign call results, for
exercising the updaters in isolation. -/
def worldC5 : World :=
  { env := fun _ => none
    ipEchoResult := Except.ok ""
    lookupResult := Except.ok []
    route53Result := Except.ok ()
    cloudflareResult := Except.ok () }

/-- A world with an empty environment and benign call results, for
exercising the updaters in isolation. -/
def worldC8 : World :=
  { env := fun _ => none
    ipEchoResult := Except.ok ""
    lookupResult := Except.ok []
    route53Result := Except.ok ()
    cloudflareResult := Except.ok () }

/-- A concrete changed-address Route53 run: external IP `203.0.113.5`,
published IP `203.0.113.4`, full configuration. -/
def worldC1 : World :=
  { env := envOf [("PROVIDER", "route53"), ("HOST_NAME", "home.example.com"),
      ("HOSTED_ZONE_ID", "Z123"), ("ASSUME_ROLE_ARN", "arn-dns")]
    ipEchoResult := Except.ok "203.0.113.5\n"
    lookupResult := Except.ok ["203.0.113.4"]
    route53Result := Except.ok ()
    cloudflareResult := Except.ok () }

/-- A concrete fully successful changed-address Route53 run. -/
def worldC2 : World :=
  { env := envOf [("PROVIDER", "route53"), ("HOST_NAME", "home.example.com"),
      ("HOSTED_ZONE_ID", "Z123"), ("ASSUME_ROLE_ARN", "arn-dns")]
    ipEchoResult := Except.ok "203.0.113.5"
    lookupResult := Except.ok ["203.0.113.4"]
    route53Result := Except.ok ()
    cloudflareResult := Except.ok () }

/-- A changed-address Route53 run with `ASSUME_ROLE_ARN` unset. -/
def worldC3 : World :=
  { env := envOf [("PROVIDER", "route53"), ("HOST_NAME", "h"), ("HOSTED_ZONE_ID", "Z")]
    ipEchoResult := Except.ok "1.2.3.4"
    lookupResult := Except.ok ["5.6.7.8"]
    route53Result := Except.ok ()
    cloudflareResult := Except.ok () }

/-- A changed-address Route53 run with `ASSUME_ROLE_ARN` present. -/
def worldC3w : World :=
  { env := envOf [("PROVIDER", "route53"), ("HOST_NAME", "h"), ("HOSTED_ZONE_ID", "Z"),
      ("ASSUME_ROLE_ARN", "arn-dns")]
    ipEchoResult := Except.ok "1.2.3.4"
    lookupResult := Except.ok ["5.6.7.8"]
    route53Result := Except.ok ()
    cloudflareResult := Except.ok () }

/-- A changed-address Route53 run with `HOSTED_ZONE_ID` unset. -/
def worldC4 : World :=
  { env := envOf [("PROVIDER", "route53"), ("HOST_NAME", "h")]
    ipEchoResult := Except.ok "1.2.3.4"
    lookupResult := Except.ok ["5.6.7.8"]
    route53Result := Except.ok ()
    cloudflareResult := Except.ok () }

/-- A changed-address Route53 run with full configuration. -/
def worldC4w : World :=
  { env := envOf [("PROVIDER", "route53"), ("HOST_NAME", "h"), ("HOSTED_ZONE_ID", "Z"),
      ("ASSUME_ROLE_ARN", "arn")]
    ipEchoResult := Except.ok "1.2.3.4"
    lookupResult := Except.ok ["5.6.7.8"]
    route53Result := Except.ok ()
    cloudflareResult := Except.ok () }

/-- A run in which local DNS resolution fails. -/
def worldC6 : World :=
  { env := envOf [("PROVIDER", "route53"), ("HOST_NAME", "h")]
    ipEchoResult := Except.ok "1.2.3.4"
    lookupResult := Except.error "nxdomain"
    route53Result := Except.ok ()
    cloudflareResult := Except.ok () }

/-- A run with `HOST_NAME` unset but a valid `PROVIDER`. -/
def worldC9 : World :=
  { env := envOf [("PROVIDER", "route53")]
    ipEchoResult := Except.ok "1.2.3.4"
    lookupResult := Except.ok ["5.6.7.8"]
    route53Result := Except.ok ()
    cloudflareResult := Except.ok () }

/-- An unchanged-address run with no provider-specific configuration at all. -/
def worldC10 : World :=
  { env := envOf [("PROVIDER", "route53"), ("HOST_NAME", "home.example.com")]
    ipEchoResult := Except.ok "203.0.113.5"
    lookupResult := Except.ok ["203.0.113.5"]
    route53Result := Except.ok ()
    cloudflareResult := Except.ok () }

/-- `main` with `PROVIDER` unset: immediate configuration panic, no calls. -/
lemma main_provider_missing (w : World) (hp : w.env "PROVIDER" = none) :
    main w = ([], Outcome.panicked "Missing value for env var PROVIDER") := by
  simp [main, required_env_var, Except.map, Except.mapError, hp]

/-- `main` with an unrecognized `PROVIDER`: immediate panic, no calls. -/
lemma main_provider_unknown (w : World) (ps err : String)
    (hp : w.env "PROVIDER" = some ps) (hf : Provider.from_str ps = Except.error err) :
    main w = ([], Outcome.panicked ("Unknown provider " ++ ps)) := by
  simp [main, required_env_var, Except.map, Except.mapError, hp, hf]

/-- `main` with a valid provider but `HOST_NAME` unset: immediate panic. -/
lemma main_hostname_missing (w : World) (ps : String) (p : Provider)
    (hp : w.env "PROVIDER" = some ps) (hf : Provider.from_str ps = Except.ok p)
    (hh : w.env "HOST_NAME" = none) :
    main w = ([], Outcome.panicked "Missing value for env var HOST_NAME") := by
  simp [main, required_env_var, Except.map, Except.mapError, hp, hf, hh]

/-- `main` when the IP-echo call fails: one call, then an abort. -/
lemma main_ipecho_error (w : World) (ps : String) (p : Provider) (hn err : String)
    (hp : w.env "PROVIDER" = some ps) (hf : Provider.from_str ps = Except.ok p)
    (hh : w.env "HOST_NAME" = some hn) (he : w.ipEchoResult = Except.error err) :
    main w = ([Event.ipEcho], Outcome.panicked "Unable to get current IP address") := by
  simp [main, required_env_var, Except.map, Except.mapError, current, hp, hf, hh, he]

/-- `main` when local DNS resolution fails: echo and lookup calls, then an
abort with the lookup-failure message. -/
lemma main_lookup_error (w : World) (ps : String) (p : Provider) (hn body err : String)
    (hp : w.env "PROVIDER" = some ps) (hf : Provider.from_str ps = Except.ok p)
    (hh : w.env "HOST_NAME" = some hn) (he : w.ipEchoResult = Except.ok body)
    (hl : w.lookupResult = Except.error err) :
    main w = ([Event.ipEcho, Event.dnsLookup hn 80],
      Outcome.panicked ("Unable to get IP address of host " ++ hn)) := by
  simp [main, required_env_var, Except.map, Except.mapError, current, lookup, hp, hf, hh, he, hl]

/-- `main` when local DNS resolution yields zero addresses: echo and lookup
calls, then an abort with the no-address message. -/
lemma main_lookup_empty (w : World) (ps : String) (p : Provider) (hn body : String)
    (hp : w.env "PROVIDER" = some ps) (hf : Provider.from_str ps = Except.ok p)
    (hh : w.env "HOST_NAME" = some hn) (he : w.ipEchoResult = Except.ok body)
    (hl : w.lookupResult = Except.ok []) :
    main w = ([Event.ipEcho, Event.dnsLookup hn 80],
      Outcome.panicked ("Missing IP address for host " ++ hn)) := by
  simp [main, required_env_var, Except.map, Except.mapError, current, lookup, hp, hf, hh, he, hl]

/-- `main` when the published and external IPs agree: echo and lookup calls
only, successful exit. -/
lemma main_no_change (w : World) (ps : String) (p : Provider) (hn body a : String)
    (t : List String)
    (hp : w.env "PROVIDER" = some ps) (hf : Provider.from_str ps = Except.ok p)
    (hh : w.env "HOST_NAME" = some hn) (he : w.ipEchoResult = Except.ok body)
    (hl : w.lookupResult = Except.ok (a :: t)) (heq : trimStr a = trimStr body) :
    main w = ([Event.ipEcho, Event.dnsLookup hn 80], Outcome.success) := by
  simp [main, required_env_var, Except.map, Except.mapError, current, lookup, hp, hf, hh, he, hl, heq]

/-- `main` on the Route53 update path with `HOSTED_ZONE_ID` unset. -/
lemma main_route53_zone_missing (w : World) (hn body a : String) (t : List String)
    (hp : w.env "PROVIDER" = some "route53")
    (hh : w.env "HOST_NAME" = some hn) (he : w.ipEchoResult = Except.ok body)
    (hl : w.lookupResult = Except.ok (a :: t)) (hne : trimStr a ≠ trimStr body)
    (hz : w.env "HOSTED_ZONE_ID" = none) :
    main w = ([Event.ipEcho, Event.dnsLookup hn 80],
      Outcome.panicked "Missing value for env var HOSTED_ZONE_ID") := by
  simp [main, required_env_var, Except.map, Except.mapError, current, lookup, Provider.from_str,
    hp, hh, he, hl, hne, hz]

/-- `main` on the Route53 update path with `ASSUME_ROLE_ARN` unset. -/
lemma main_route53_arn_missing (w : World) (hn body a z : String) (t : List String)
    (hp : w.env "PROVIDER" = some "route53")
    (hh : w.env "HOST_NAME" = some hn) (he : w.ipEchoResult = Except.ok body)
    (hl : w.lookupResult = Except.ok (a :: t)) (hne : trimStr a ≠ trimStr body)
    (hz : w.env "HOSTED_ZONE_ID" = some z)
    (ha : w.env "ASSUME_ROLE_ARN" = none) :
    main w = ([Event.ipEcho, Event.dnsLookup hn 80],
      Outcome.panicked "Missing value for env var ASSUME_ROLE_ARN") := by
  simp [main, required_env_var, Except.map, Except.mapError, current, lookup, Provider.from_str,
    hp, hh, he, hl, hne, hz, ha]

/-- `main` on the fully configured Route53 update path: echo, lookup, one
updater invocation carrying the host name and the trimmed external IP, and
one change-batch submission through a client assuming the configured role. -/
lemma main_route53_update (w : World) (hn body a z arn : String) (t : List String)
    (hp : w.env "PROVIDER" = some "route53")
    (hh : w.env "HOST_NAME" = some hn) (he : w.ipEchoResult = Except.ok body)
    (hl : w.lookupResult = Except.ok (a :: t)) (hne : trimStr a ≠ trimStr body)
    (hz : w.env "HOSTED_ZONE_ID" = some z)
    (ha : w.env "ASSUME_ROLE_ARN" = some arn) :
    main w = ([Event.ipEcho, Event.dnsLookup hn 80,
        Event.updaterInvoked hn (trimStr body),
        Event.route53Change ⟨arn⟩ (route53Req z hn (trimStr body))],
      updateOutcome w.route53Result) := by
  cases hr : w.route53Result with
  | ok u =>
    simp [main, required_env_var, Except.map, Except.mapError, current, lookup, Provider.from_str,
      Route53Updater.update, route53Req, updateOutcome,
      hp, hh, he, hl, hne, hz, ha, hr]
  | error err =>
    simp [main, required_env_var, Except.map, Except.mapError, current, lookup, Provider.from_str,
      Route53Updater.update, route53Req, updateOutcome,
      hp, hh, he, hl, hne, hz, ha, hr]

/-- `main` on the Cloudflare update path with `CLOUDFLARE_ZONE_IDENTIFIER` unset. -/
lemma main_cf_zone_missing (w : World) (hn body a : String) (t : List String)
    (hp : w.env "PROVIDER" = some "cloudflare")
    (hh : w.env "HOST_NAME" = some hn) (he : w.ipEchoResult = Except.ok body)
    (hl : w.lookupResult = Except.ok (a :: t)) (hne : trimStr a ≠ trimStr body)
    (hz : w.env "CLOUDFLARE_ZONE_IDENTIFIER" = none) :
    main w = ([Event.ipEcho, Event.dnsLookup hn 80],
      Outcome.panicked "Missing value for env var CLOUDFLARE_ZONE_IDENTIFIER") := by
  simp [main, required_env_var, Except.map, Except.mapError, current, lookup, Provider.from_str,
    hp, hh, he, hl, hne, hz]

/-- `main` on the Cloudflare update path with `CLOUDFLARE_IDENTIFIER` unset. -/
lemma main_cf_id_missing (w : World) (hn body a zid : String) (t : List String)
    (hp : w.env "PROVIDER" = some "cloudflare")
    (hh : w.env "HOST_NAME" = some hn) (he : w.ipEchoResult = Except.ok body)
    (hl : w.lookupResult = Except.ok (a :: t)) (hne : trimStr a ≠ trimStr body)
    (hz : w.env "CLOUDFLARE_ZONE_IDENTIFIER" = some zid)
    (hi : w.env "CLOUDFLARE_IDENTIFIER" = none) :
    main w = ([Event.ipEcho, Event.dnsLookup hn 80],
      Outcome.panicked "Missing value for env var CLOUDFLARE_IDENTIFIER") := by
  simp [main, required_env_var, Except.map, Except.mapError, current, lookup, Provider.from_str,
    hp, hh, he, hl, hne, hz, hi]

/-- `main` on the Cloudflare update path with `CLOUDFLARE_TOKEN` unset. -/
lemma main_cf_token_missing (w : World) (hn body a zid rid : String) (t : List String)
    (hp : w.env "PROVIDER" = some "cloudflare")
    (hh : w.env "HOST_NAME" = some hn) (he : w.ipEchoResult = Except.ok body)
    (hl : w.lookupResult = Except.ok (a :: t)) (hne : trimStr a ≠ trimStr body)
    (hz : w.env "CLOUDFLARE_ZONE_IDENTIFIER" = some zid)
    (hi : w.env "CLOUDFLARE_IDENTIFIER" = some rid)
    (ht : w.env "CLOUDFLARE_TOKEN" = none) :
    main w = ([Event.ipEcho, Event.dnsLookup hn 80],
      Outcome.panicked "Missing value for env var CLOUDFLARE_TOKEN") := by
  simp [main, required_env_var, Except.map, Except.mapError, current, lookup, Provider.from_str,
    hp, hh, he, hl, hne, hz, hi, ht]

/-- `main` on the fully configured Cloudflare update path when the new value
does not parse as IPv4: the updater is invoked but no provider HTTP call is
made, and the run aborts. -/
lemma main_cf_update_badip (w : World) (hn body a zid rid tok : String) (t : List String)
    (hp : w.env "PROVIDER" = some "cloudflare")
    (hh : w.env "HOST_NAME" = some hn) (he : w.ipEchoResult = Except.ok body)
    (hl : w.lookupResult = Except.ok (a :: t)) (hne : trimStr a ≠ trimStr body)
    (hz : w.env "CLOUDFLARE_ZONE_IDENTIFIER" = some zid)
    (hi : w.env "CLOUDFLARE_IDENTIFIER" = some rid)
    (ht : w.env "CLOUDFLARE_TOKEN" = some tok)
    (hip : parseIpv4 (trimStr body) = none) :
    main w = ([Event.ipEcho, Event.dnsLookup hn 80,
        Event.updaterInvoked hn (trimStr body)],
      Outcome.panicked "Failed to update DNS records") := by
  simp [main, required_env_var, Except.map, Except.mapError, current, lookup, Provider.from_str,
    CloudflareUpdater.update, hp, hh, he, hl, hne, hz, hi, ht, hip]

/-- `main` on the fully configured Cloudflare update path with a parseable
new value: echo, lookup, one updater invocation and one record update. -/
lemma main_cf_update_ok (w : World) (hn body a zid rid tok : String) (t : List String)
    (ip : Ipv4)
    (hp : w.env "PROVIDER" = some "cloudflare")
    (hh : w.env "HOST_NAME" = some hn) (he : w.ipEchoResult = Except.ok body)
    (hl : w.lookupResult = Except.ok (a :: t)) (hne : trimStr a ≠ trimStr body)
    (hz : w.env "CLOUDFLARE_ZONE_IDENTIFIER" = some zid)
    (hi : w.env "CLOUDFLARE_IDENTIFIER" = some rid)
    (ht : w.env "CLOUDFLARE_TOKEN" = some tok)
    (hip : parseIpv4 (trimStr body) = some ip) :
    main w = ([Event.ipEcho, Event.dnsLookup hn 80,
        Event.updaterInvoked hn (trimStr body),
        Event.cloudflareUpdate ⟨tok⟩ (cloudflareReq zid rid hn ip)],
      updateOutcome w.cloudflareResult) := by
  cases hr : w.cloudflareResult with
  | ok u =>
    simp [main, required_env_var, Except.map, Except.mapError, current, lookup, Provider.from_str,
      CloudflareUpdater.update, cloudflareReq, updateOutcome,
      hp, hh, he, hl, hne, hz, hi, ht, hip, hr]
  | error err =>
    simp [main, required_env_var, Except.map, Except.mapError, current, lookup, Provider.from_str,
      CloudflareUpdater.update, cloudflareReq, updateOutcome,
      hp, hh, he, hl, hne, hz, hi, ht, hip, hr]

/-- `Provider::from_str` only accepts the literal `"route53"` for Route53. -/
lemma from_str_route53 {ps : String} (h : Provider.from_str ps = Except.ok Provider.Route53) :
    ps = "route53" := by
  by_cases h1 : ps = "route53"
  · exact h1
  · by_cases h2 : ps = "cloudflare"
    · simp only [Provider.from_str, if_neg h1, if_pos h2] at h
      exact nomatch h
    · simp only [Provider.from_str, if_neg h1, if_neg h2] at h
      exact nomatch h

/-- `Provider::from_str` only accepts the literal `"cloudflare"` for Cloudflare. -/
lemma from_str_cloudflare {ps : String}
    (h : Provider.from_str ps = Except.ok Provider.Cloudflare) :
    ps = "cloudflare" := by
  by_cases h1 : ps = "route53"
  · simp only [Provider.from_str, if_pos h1] at h
    exact nomatch h
  · by_cases h2 : ps = "cloudflare"
    · exact h2
    · simp only [Provider.from_str, if_neg h1, if_neg h2] at h
      exact nomatch h

/-- The lookup-failure and no-address abort messages differ for every host. -/
lemma lookup_msgs_distinct (hn : String) :
    ("Unable to get IP address of host " ++ hn) ≠
      ("Missing IP address for host " ++ hn) := by
  intro h
  cases hn with
  | mk l =>
    have h2 : ("Unable to get IP address of host ").data ++ l =
        ("Missing IP address for host ").data ++ l := congrArg String.data h
    have h3 : some 'U' = some 'M' := congrArg List.head? h2
    exact absurd h3 (by decide)

/-- Two facts about every event `main` can emit: it is never a metrics push,
and when it is a provider API call, the selected provider's required
environment variables were all present. -/
lemma main_trace_facts (w : World) :
    ∀ e ∈ (main w).1,
      Event.isMetricsPush e = false ∧
      (Event.isProviderCall e = true →
        ∃ ps p, w.env "PROVIDER" = some ps ∧ Provider.from_str ps = Except.ok p ∧
          providerEnvReady w p) := by
  intro e he
  cases hp : w.env "PROVIDER" with
  | none =>
    rw [main_provider_missing w hp] at he
    simp at he
  | some ps =>
    cases hf : Provider.from_str ps with
    | error err =>
      rw [main_provider_unknown w ps err hp hf] at he
      simp at he
    | ok p =>
      cases hh : w.env "HOST_NAME" with
      | none =>
        rw [main_hostname_missing w ps p hp hf hh] at he
        simp at he
      | some hn =>
        cases hec : w.ipEchoResult with
        | error err =>
          rw [main_ipecho_error w ps p hn err hp hf hh hec] at he
          simp at he
          subst he
          exact ⟨rfl, fun hc => nomatch hc⟩
        | ok body =>
          cases hl : w.lookupResult with
          | error err =>
            rw [main_lookup_error w ps p hn body err hp hf hh hec hl] at he
            simp at he
            rcases he with he | he <;> subst he <;>
              exact ⟨rfl, fun hc => nomatch hc⟩
          | ok addrs =>
            cases addrs with
            | nil =>
              rw [main_lookup_empty w ps p hn body hp hf hh hec hl] at he
              simp at he
              rcases he with he | he <;> subst he <;>
                exact ⟨rfl, fun hc => nomatch hc⟩
            | cons a t =>
              by_cases heq : trimStr a = trimStr body
              · rw [main_no_change w ps p hn body a t hp hf hh hec hl heq] at he
                simp at he
                rcases he with he | he <;> subst he <;>
                  exact ⟨rfl, fun hc => nomatch hc⟩
              · cases p with
                | Route53 =>
                  have hps : ps = "route53" := from_str_route53 hf
                  subst hps
                  cases hz : w.env "HOSTED_ZONE_ID" with
                  | none =>
                    rw [main_route53_zone_missing w hn body a t hp hh hec hl heq hz] at he
                    simp at he
                    rcases he with he | he <;> subst he <;>
                      exact ⟨rfl, fun hc => nomatch hc⟩
                  | some z =>
                    cases ha : w.env "ASSUME_ROLE_ARN" with
                    | none =>
                      rw [main_route53_arn_missing w hn body a z t hp hh hec hl heq hz ha] at he
                      simp at he
                      rcases he with he | he <;> subst he <;>
                        exact ⟨rfl, fun hc => nomatch hc⟩
                    | some arn =>
                      rw [main_route53_update w hn body a z arn t hp hh hec hl heq hz ha] at he
                      simp at he
                      have hready : providerEnvReady w Provider.Route53 := by
                        constructor <;> simp [hz, ha]
                      rcases he with he | he | he | he <;> subst he <;>
                        exact ⟨rfl, fun hc =>
                          ⟨"route53", Provider.Route53, rfl, rfl, hready⟩⟩
                | Cloudflare =>
                  have hps : ps = "cloudflare" := from_str_cloudflare hf
                  subst hps
                  cases hz : w.env "CLOUDFLARE_ZONE_IDENTIFIER" with
                  | none =>
                    rw [main_cf_zone_missing w hn body a t hp hh hec hl heq hz] at he
                    simp at he
                    rcases he with he | he <;> subst he <;>
                      exact ⟨rfl, fun hc => nomatch hc⟩
                  | some zid =>
                    cases hi : w.env "CLOUDFLARE_IDENTIFIER" with
                    | none =>
                      rw [main_cf_id_missing w hn body a zid t hp hh hec hl heq hz hi] at he
                      simp at he
                      rcases he with he | he <;> subst he <;>
                        exact ⟨rfl, fun hc => nomatch hc⟩
                    | some rid =>
                      cases ht : w.env "CLOUDFLARE_TOKEN" with
                      | none =>
                        rw [main_cf_token_missing w hn body a zid rid t
                          hp hh hec hl heq hz hi ht] at he
                        simp at he
                        rcases he with he | he <;> subst he <;>
                          exact ⟨rfl, fun hc => nomatch hc⟩
                      | some tok =>
                        have hready : providerEnvReady w Provider.Cloudflare := by
                          refine ⟨?_, ?_, ?_⟩ <;> simp [hz, hi, ht]
                        cases hip : parseIpv4 (trimStr body) with
                        | none =>
                          rw [main_cf_update_badip w hn body a zid rid tok t
                            hp hh hec hl heq hz hi ht hip] at he
                          simp at he
                          rcases he with he | he | he <;> subst he <;>
                            exact ⟨rfl, fun hc => nomatch hc⟩
                        | some ip =>
                          rw [main_cf_update_ok w hn body a zid rid tok t ip
                            hp hh hec hl heq hz hi ht hip] at he
                          simp at he
                          rcases he with he | he | he | he <;> subst he <;>
                            exact ⟨rfl, fun hc =>
                              ⟨"cloudflare", Provider.Cloudflare, rfl, rfl, hready⟩⟩

/-- C7: `Route53Updater::update` submits a single change batch with action
Upsert against the configured hosted zone, whose resource record set has the
given hostname, record type A, TTL 300 seconds, and exactly one attached
resource-record value equal to the new IP string. -/
theorem C7_route53_single_upsert (w : World) (u : Route53Updater)
    (host_name record_value : String) :
    u.update w host_name record_value =
      ([Event.route53Change u.client
          { hosted_zone_id := u.hosted_zone_id
            change_batch :=
              { changes :=
                  [{ action := ChangeAction.Upsert
                     resource_record_set :=
                       { name := host_name, ttl := 300, rrType := RrType.A
                         resource_records := [{ value := record_value }] } }] } }],
        w.route53Result.mapError DNSUpdateError.Route53) := rfl

/-- C5: for every record value that does not parse as a valid IPv4 address,
`CloudflareUpdater::update` returns the `AddrParse` error — an error case
distinct from the provider error constructors — with an empty trace, so no
HTTP call to the Cloudflare provider is issued. -/
theorem C5_cloudflare_addr_parse_before_http (w : World) (u : CloudflareUpdater)
    (host_name record_value : String) (h : parseIpv4 record_value = none) :
    u.update w host_name record_value = ([], Except.error DNSUpdateError.AddrParse) ∧
    (∀ e, DNSUpdateError.AddrParse ≠ DNSUpdateError.Cloudflare e) ∧
    (∀ e, DNSUpdateError.AddrParse ≠ DNSUpdateError.Route53 e) := by
  refine ⟨?_, fun e h' => DNSUpdateError.noConfusion h',
    fun e h' => DNSUpdateError.noConfusion h'⟩
  unfold CloudflareUpdater.update
  rw [h]

/-- C5 witness: the concrete non-address `"not-an-ip"`. -/
theorem C5_witness :
    parseIpv4 "not-an-ip" = none ∧
    CloudflareUpdater.update worldC5 ⟨⟨"tok"⟩, "zid", "rid"⟩ "home.example.com" "not-an-ip" =
      ([], Except.error DNSUpdateError.AddrParse) :=
  ⟨by decide, (C5_cloudflare_addr_parse_before_http worldC5 ⟨⟨"tok"⟩, "zid", "rid"⟩
      "home.example.com" "not-an-ip" (by decide)).1⟩

/-- C8: `CloudflareUpdater::update` submits exactly one record update, scoped
to the configured zone identifier and record identifier, with TTL 60,
proxying unset, the given hostname as name, and the parsed IPv4 as type-A
content. -/
theorem C8_cloudflare_update_by_id (w : World) (u : CloudflareUpdater)
    (host_name record_value : String) (ip : Ipv4)
    (h : parseIpv4 record_value = some ip) :
    u.update w host_name record_value =
      ([Event.cloudflareUpdate u.client
          { zone_identifier := u.zone_identifier
            identifier := u.identifier
            params := { ttl := some 60, proxied := none, name := host_name
                        content := DnsContent.A ip } }],
        w.cloudflareResult.mapError DNSUpdateError.Cloudflare) := by
  unfold CloudflareUpdater.update
  rw [h]

/-- C8 witness: a concrete update of `home.example.com` to `203.0.113.5`. -/
theorem C8_witness :
    parseIpv4 "203.0.113.5" = some ⟨203, 0, 113, 5⟩ ∧
    CloudflareUpdater.update worldC8 ⟨⟨"tok"⟩, "zid", "rid"⟩ "home.example.com" "203.0.113.5" =
      ([Event.cloudflareUpdate ⟨"tok"⟩
          { zone_identifier := "zid", identifier := "rid"
            params := { ttl := some 60, proxied := none, name := "home.example.com"
                        content := DnsContent.A ⟨203, 0, 113, 5⟩ } }],
        Except.ok ()) :=
  ⟨by decide, C8_cloudflare_update_by_id worldC8 ⟨⟨"tok"⟩, "zid", "rid"⟩
      "home.example.com" "203.0.113.5" ⟨203, 0, 113, 5⟩ (by decide)⟩

/-- C1: with a valid provider selection, complete configuration for it, and
successful echo and lookup, the updater is never invoked when the trimmed
published IP equals the trimmed external IP, and is invoked exactly once —
carrying the configured hostname and the new external value — when they
differ. -/
theorem C1_update_iff_changed (w : World) (ps hn body a : String) (p : Provider)
    (t : List String)
    (hp : w.env "PROVIDER" = some ps) (hf : Provider.from_str ps = Except.ok p)
    (hh : w.env "HOST_NAME" = some hn)
    (he : w.ipEchoResult = Except.ok body) (hl : w.lookupResult = Except.ok (a :: t))
    (hready : providerEnvReady w p) :
    (trimStr a = trimStr body → updaterCalls (main w).1 = []) ∧
    (trimStr a ≠ trimStr body →
      updaterCalls (main w).1 = [Event.updaterInvoked hn (trimStr body)]) := by
  constructor
  · intro heq
    rw [main_no_change w ps p hn body a t hp hf hh he hl heq]
    rfl
  · intro hne
    cases p with
    | Route53 =>
      have hps := from_str_route53 hf
      subst hps
      obtain ⟨z, hz⟩ := Option.isSome_iff_exists.mp hready.1
      obtain ⟨arn, ha⟩ := Option.isSome_iff_exists.mp hready.2
      rw [main_route53_update w hn body a z arn t hp hh he hl hne hz ha]
      rfl
    | Cloudflare =>
      have hps := from_str_cloudflare hf
      subst hps
      obtain ⟨zid, hz⟩ := Option.isSome_iff_exists.mp hready.1
      obtain ⟨rid, hi⟩ := Option.isSome_iff_exists.mp hready.2.1
      obtain ⟨tok, ht⟩ := Option.isSome_iff_exists.mp hready.2.2
      cases hip : parseIpv4 (trimStr body) with
      | none =>
        rw [main_cf_update_badip w hn body a zid rid tok t hp hh he hl hne hz hi ht hip]
        rfl
      | some ip =>
        rw [main_cf_update_ok w hn body a zid rid tok t ip hp hh he hl hne hz hi ht hip]
        rfl

/-- C1 witness: a concrete changed-address run invokes the updater exactly
once, with the configured hostname and the new external IP. -/
theorem C1_witness :
    updaterCalls (main worldC1).1 =
      [Event.updaterInvoked "home.example.com" "203.0.113.5"] :=
  (C1_update_iff_changed worldC1 "route53" "home.example.com" "203.0.113.5\n"
      "203.0.113.4" Provider.Route53 [] rfl rfl rfl rfl rfl ⟨rfl, rfl⟩).2 (by decide)

/-- C2 counterexample: a complete, fully successful changed-address run: the
pipeline performs the update and exits successfully having issued no
metrics-push call — the program contains no metrics reporter. -/
theorem C2_counterexample :
    (main worldC2).2 = Outcome.success ∧
    Event.updaterInvoked "home.example.com" "203.0.113.5" ∈ (main worldC2).1 ∧
    (main worldC2).1.filter Event.isMetricsPush = [] := by decide

/-- C2 amended: the program performs no metrics reporting at all — no run of
`main` ever issues a metrics-push call. -/
theorem C2_no_metrics_push (w : World) :
    (main w).1.filter Event.isMetricsPush = [] := by
  rw [List.filter_eq_nil_iff]
  intro e he
  simp [(main_trace_facts w e he).1]

/-- C3 counterexample: provider `route53`, an update needed, `HOSTED_ZONE_ID`
present but `ASSUME_ROLE_ARN` unset — the program terminates with a
missing-configuration error for `ASSUME_ROLE_ARN` instead of proceeding on
ambient credentials. -/
theorem C3_counterexample :
    main worldC3 = ([Event.ipEcho, Event.dnsLookup "h" 80],
      Outcome.panicked "Missing value for env var ASSUME_ROLE_ARN") := by decide

/-- C3 amended: on the route53 update path `ASSUME_ROLE_ARN` is required:
when absent the program aborts naming it, and when present the role is
always exchanged — the change is submitted through a client assuming exactly
that role. -/
theorem C3_assume_role_required (w : World) (hn body a z : String) (t : List String)
    (hp : w.env "PROVIDER" = some "route53")
    (hh : w.env "HOST_NAME" = some hn) (he : w.ipEchoResult = Except.ok body)
    (hl : w.lookupResult = Except.ok (a :: t)) (hne : trimStr a ≠ trimStr body)
    (hz : w.env "HOSTED_ZONE_ID" = some z) :
    (w.env "ASSUME_ROLE_ARN" = none →
      main w = ([Event.ipEcho, Event.dnsLookup hn 80],
        Outcome.panicked "Missing value for env var ASSUME_ROLE_ARN")) ∧
    (∀ arn, w.env "ASSUME_ROLE_ARN" = some arn →
      (main w).1 = [Event.ipEcho, Event.dnsLookup hn 80,
        Event.updaterInvoked hn (trimStr body),
        Event.route53Change { assume_role_arn := arn }
          (route53Req z hn (trimStr body))]) := by
  constructor
  · intro ha
    exact main_route53_arn_missing w hn body a z t hp hh he hl hne hz ha
  · intro arn ha
    rw [main_route53_update w hn body a z arn t hp hh he hl hne hz ha]

/-- C3 witness: with the role present, the client assumes exactly that role. -/
theorem C3_witness :
    (main worldC3w).1 = [Event.ipEcho, Event.dnsLookup "h" 80,
      Event.updaterInvoked "h" "1.2.3.4",
      Event.route53Change { assume_role_arn := "arn-dns" }
        (route53Req "Z" "h" "1.2.3.4")] :=
  (C3_assume_role_required worldC3w "h" "1.2.3.4" "5.6.7.8" "Z" []
    rfl rfl rfl rfl (by decide) rfl).2 "arn-dns" rfl

/-- C4 counterexample: with provider `route53` selected and `HOSTED_ZONE_ID`
unset, the program issues the IP-echo and DNS-lookup network calls before
reporting the configuration error — a network call while a required variable
for the selected provider is absent. -/
theorem C4_counterexample :
    main worldC4 = ([Event.ipEcho, Event.dnsLookup "h" 80],
      Outcome.panicked "Missing value for env var HOSTED_ZONE_ID") ∧
    (main worldC4).1 ≠ [] := by decide

/-- C4 amended: configuration errors for `PROVIDER` and `HOST_NAME` are fatal
and reported before any network call (empty trace); the provider-specific
variables are only checked on the update path, after the echo and lookup
calls, but no provider API call is ever issued while a variable required by
the selected provider is absent. -/
theorem C4_config_errors (w : World) :
    (w.env "PROVIDER" = none →
      main w = ([], Outcome.panicked "Missing value for env var PROVIDER")) ∧
    (∀ ps err, w.env "PROVIDER" = some ps → Provider.from_str ps = Except.error err →
      main w = ([], Outcome.panicked ("Unknown provider " ++ ps))) ∧
    (∀ ps p, w.env "PROVIDER" = some ps → Provider.from_str ps = Except.ok p →
      w.env "HOST_NAME" = none →
      main w = ([], Outcome.panicked "Missing value for env var HOST_NAME")) ∧
    (∀ e, e ∈ (main w).1 → Event.isProviderCall e = true →
      ∃ ps p, w.env "PROVIDER" = some ps ∧ Provider.from_str ps = Except.ok p ∧
        providerEnvReady w p) :=
  ⟨fun hp => main_provider_missing w hp,
   fun ps err hp hf => main_provider_unknown w ps err hp hf,
   fun ps p hp hf hh => main_hostname_missing w ps p hp hf hh,
   fun e he hc => (main_trace_facts w e he).2 hc⟩

/-- C4 witness: in a fully configured changed-address run, the provider call
that appears in the trace implies all route53 requirements were present. -/
theorem C4_witness :
    ∃ ps p, worldC4w.env "PROVIDER" = some ps ∧ Provider.from_str ps = Except.ok p ∧
      providerEnvReady worldC4w p :=
  (C4_config_errors worldC4w).2.2.2
    (Event.route53Change { assume_role_arn := "arn" } (route53Req "Z" "h" "1.2.3.4"))
    (by decide) rfl

/-- C6: `lookup` returns the first resolved address's IP, trimmed, or `none`
when resolution yields zero addresses; resolution failure propagates as an
error distinct from the zero-addresses case, and the caller aborts with the
lookup-failure message in the former case and the no-address message in the
latter — two distinct messages. -/
theorem C6_lookup_first_or_none (w : World) (ps hn body : String) (p : Provider)
    (hp : w.env "PROVIDER" = some ps) (hf : Provider.from_str ps = Except.ok p)
    (hh : w.env "HOST_NAME" = some hn) (he : w.ipEchoResult = Except.ok body) :
    (∀ a t, w.lookupResult = Except.ok (a :: t) →
      (lookup w hn 80).2 = Except.ok (some (trimStr a))) ∧
    (w.lookupResult = Except.ok [] → (lookup w hn 80).2 = Except.ok none) ∧
    (∀ err, w.lookupResult = Except.error err →
      (lookup w hn 80).2 = Except.error err ∧
      main w = ([Event.ipEcho, Event.dnsLookup hn 80],
        Outcome.panicked ("Unable to get IP address of host " ++ hn))) ∧
    (w.lookupResult = Except.ok [] →
      main w = ([Event.ipEcho, Event.dnsLookup hn 80],
        Outcome.panicked ("Missing IP address for host " ++ hn))) ∧
    ("Unable to get IP address of host " ++ hn) ≠
      ("Missing IP address for host " ++ hn) := by
  refine ⟨?_, ?_, ?_, ?_, lookup_msgs_distinct hn⟩
  · intro a t hl
    simp [lookup, hl, Except.map]
  · intro hl
    simp [lookup, hl, Except.map]
  · intro err hl
    exact ⟨by simp [lookup, hl, Except.map],
      main_lookup_error w ps p hn body err hp hf hh he hl⟩
  · intro hl
    exact main_lookup_empty w ps p hn body hp hf hh he hl

/-- C6 witness: a failing resolution aborts with the lookup-failure message. -/
theorem C6_witness :
    main worldC6 = ([Event.ipEcho, Event.dnsLookup "h" 80],
      Outcome.panicked "Unable to get IP address of host h") :=
  ((C6_lookup_first_or_none worldC6 "route53" "h" "1.2.3.4" Provider.Route53
      rfl rfl rfl rfl).2.2.1 "nxdomain" rfl).2

/-- C9: with `HOST_NAME` unset the program terminates with a configuration
error naming a missing parameter and issues no network calls; when the
provider selection itself is valid, the error names `HOST_NAME`. -/
theorem C9_hostname_unset (w : World) (h : w.env "HOST_NAME" = none) :
    (main w).1 = [] ∧ isConfigError (main w).2 ∧
    (∀ ps p, w.env "PROVIDER" = some ps → Provider.from_str ps = Except.ok p →
      (main w).2 = Outcome.panicked "Missing value for env var HOST_NAME") := by
  cases hp : w.env "PROVIDER" with
  | none =>
    rw [main_provider_missing w hp]
    exact ⟨rfl, Or.inl ⟨"PROVIDER", rfl⟩, fun ps p hps => nomatch hps⟩
  | some ps =>
    cases hf : Provider.from_str ps with
    | error err =>
      rw [main_provider_unknown w ps err hp hf]
      refine ⟨rfl, Or.inr ⟨ps, rfl⟩, ?_⟩
      intro ps' p hps hf'
      cases hps
      rw [hf] at hf'
      exact nomatch hf'
    | ok p =>
      rw [main_hostname_missing w ps p hp hf h]
      exact ⟨rfl, Or.inl ⟨"HOST_NAME", rfl⟩, fun ps' p' hps hf' => rfl⟩

/-- C9 witness: `PROVIDER=route53` set, `HOST_NAME` unset — empty trace and
an error naming `HOST_NAME`. -/
theorem C9_witness :
    (main worldC9).1 = [] ∧
    (main worldC9).2 = Outcome.panicked "Missing value for env var HOST_NAME" :=
  ⟨(C9_hostname_unset worldC9 rfl).1,
   (C9_hostname_unset worldC9 rfl).2.2 "route53" Provider.Route53 rfl rfl⟩

/-- C10: on the no-update path the program exits successfully after only the
echo and lookup calls, and its behavior is unchanged under arbitrary changes
to every environment variable other than `PROVIDER` and `HOST_NAME` — so the
provider-specific variables are never read and no provider client is
constructed. -/
theorem C10_no_update_frame (w : World) (ps hn body a : String) (p : Provider)
    (t : List String)
    (hp : w.env "PROVIDER" = some ps) (hf : Provider.from_str ps = Except.ok p)
    (hh : w.env "HOST_NAME" = some hn)
    (he : w.ipEchoResult = Except.ok body) (hl : w.lookupResult = Except.ok (a :: t))
    (heq : trimStr a = trimStr body) :
    main w = ([Event.ipEcho, Event.dnsLookup hn 80], Outcome.success) ∧
    (∀ g : String → Option String, g "PROVIDER" = w.env "PROVIDER" →
      g "HOST_NAME" = w.env "HOST_NAME" →
      main { w with env := g } = main w) := by
  have h1 := main_no_change w ps p hn body a t hp hf hh he hl heq
  refine ⟨h1, ?_⟩
  intro g hg1 hg2
  have h2 := main_no_change { w with env := g } ps p hn body a t
    (hg1.trans hp) hf (hg2.trans hh) he hl heq
  rw [h1, h2]

/-- C10 witness: a concrete unchanged-address run with no provider-specific
configuration succeeds, and adding a provider credential afterwards does not
change the run. -/
theorem C10_witness :
    main worldC10 = ([Event.ipEcho, Event.dnsLookup "home.example.com" 80],
      Outcome.success) ∧
    main { worldC10 with env := envOf [("PROVIDER", "route53"),
        ("HOST_NAME", "home.example.com"), ("CLOUDFLARE_TOKEN", "t")] } =
      main worldC10 :=
  ⟨(C10_no_update_frame worldC10 "route53" "home.example.com" "203.0.113.5"
      "203.0.113.5" Provider.Route53 [] rfl rfl rfl rfl rfl rfl).1,
   (C10_no_update_frame worldC10 "route53" "home.example.com" "203.0.113.5"
      "203.0.113.5" Provider.Route53 [] rfl rfl rfl rfl rfl rfl).2
     (envOf [("PROVIDER", "route53"), ("HOST_NAME", "home.example.com"),
        ("CLOUDFLARE_TOKEN", "t")]) rfl rfl⟩

end Dyndns

